import Mathlib

/-
  Verification of the hybridsearch-bm25-rag-docling-llm repository.

  Shallow embedding of the query-normalization, snippet-formatting and
  retrieval-coordination logic of src/djapp.py, the bulk-write error handling
  and ingestion driver of src/storedocs.py, and the embedding-dimension check
  of src/coreutils.py.  Python strings are modelled as Lean String values,
  Python lists as Lean List values, dictionary lookups that can fail as
  Option, and calls that can raise transport exceptions as Except.
-/

namespace HybridSearch

/-! ## Python string primitives used by the source -/

/-- The apostrophe character, built from its code point so that the stop-word
list below can spell contractions. -/
def apos : String := String.mk [Char.ofNat 39]

/-- Helper gluing two fragments around an apostrophe. -/
def ap (a b : String) : String := a ++ apos ++ b

/-- Python str.split() with no argument, implemented structurally over the
character list so that the kernel can evaluate it: split on whitespace runs,
dropping empty pieces.  The first accumulator holds the current token in
reverse. -/
def splitWS_go : List Char → List Char → List String
  | [], cur => if cur.isEmpty then [] else [String.mk cur.reverse]
  | c :: rest, cur =>
    if c.isWhitespace then
      if cur.isEmpty then splitWS_go rest [] else String.mk cur.reverse :: splitWS_go rest []
    else splitWS_go rest (c :: cur)

/-- Python str.split() with no argument. -/
def pysplit (s : String) : List String := splitWS_go s.data []

/-- Python str.lower() for the ASCII texts this system handles. -/
def pyLower (s : String) : String := String.mk (s.data.map Char.toLower)

/-- Replacement of every non-overlapping occurrence of pat, left to right,
with fuel bounding the recursion depth by the input length. -/
def replace_go (pat rep : List Char) : Nat → List Char → List Char
  | 0, l => l
  | _ + 1, [] => []
  | fuel + 1, c :: rest =>
    if pat.isPrefixOf (c :: rest) then rep ++ replace_go pat rep fuel ((c :: rest).drop pat.length)
    else c :: replace_go pat rep fuel rest

/-- Python str.replace(pat, rep) for a non-empty pattern. -/
def pyReplace (s pat rep : String) : String :=
  if pat.data.isEmpty then s
  else String.mk (replace_go pat.data rep.data s.data.length s.data)

/-- Splitting on a non-empty separator, fuel-bounded; the accumulator holds
the current piece in reverse. -/
def splitOn_go (sep : List Char) : Nat → List Char → List Char → List (List Char)
  | 0, cur, l => [cur.reverse ++ l]
  | _ + 1, cur, [] => [cur.reverse]
  | fuel + 1, cur, c :: rest =>
    if sep.isPrefixOf (c :: rest) then cur.reverse :: splitOn_go sep fuel [] ((c :: rest).drop sep.length)
    else splitOn_go sep fuel (c :: cur) rest

/-- Python str.split(sep) for a non-empty separator, keeping empty pieces,
as used for the proximity-operator truncation. -/
def pySplitOn (s sep : String) : List String :=
  if sep.data.isEmpty then [s]
  else (splitOn_go sep.data s.data.length [] s.data).map String.mk

/-- Python sep.join(pieces). -/
def pyJoin (sep : String) : List String → String
  | [] => ""
  | [x] => x
  | x :: rest => x ++ sep ++ pyJoin sep rest

/-- Python str.endswith(t). -/
def pyEndsWith (s t : String) : Bool := t.data.isSuffixOf s.data

/-- Python str.lstrip(c): drop every leading occurrence of the character c. -/
def lstripChar (c : Char) (s : String) : String := String.mk (s.data.dropWhile (fun d => d == c))

/-- Python str.rstrip(c): drop every trailing occurrence of the character c. -/
def rstripChar (c : Char) (s : String) : String :=
  String.mk ((s.data.reverse.dropWhile (fun d => d == c)).reverse)

/-- Python list slicing l[lft:rgt] for 0 <= lft, rgt: end-exclusive. -/
def pyslice (l : List String) (lft rgt : Nat) : List String := (l.drop lft).take (rgt - lft)

/-- Python string slicing s[:n]. -/
def takeChars (n : Nat) (s : String) : String := String.mk (s.data.take n)

/-- Rendering of a Python Optional[int] inside an f-string: None prints as
the four letters None, an int prints as its decimal digits. -/
def pyOptRepr : Option Nat → String
  | none => "None"
  | some n => toString n

/-- Python truthiness of an Optional list: None and the empty list are falsy. -/
def pyTruthyList {α : Type} : Option (List α) → Bool
  | some (_ :: _) => true
  | _ => false

/-! ## Query normalization (src/djapp.py, req_docs, lines 89 to 126) -/

/-- The stop-word set stp_words of req_docs, transcribed entry by entry from
src/djapp.py lines 89 to 104. -/
def stpWords : List String :=
  ["i", "me", "my", "myself", "we", "our", "ours",
   "ourselves", "you", ap "you" "re", ap "you" "ve", ap "you" "ll", ap "you" "d", "your", "yours", "yourself",
   "yourselves", "he", "him", "his", "himself", "she", ap "she" "s", "her", "hers", "herself",
   "it", ap "it" "s", "its", "itself", "they", "them", "their", "theirs", "themselves",
   "this", "that", ap "that" "ll", "these", "those", "am", "is", "are", "did", "doing",
   "was", "were", "be", "been", "being", "have", "has", "had", "having", "do", "does",
   "a", "an", "the", "and", "but", "if", "or", "because", "as", "until", "while", "of", "at",
   "with", "about", "against", "between", "into", "through", "during", "before", "after", "above",
   "from", "up", "down", "in", "out", "on", "off", "over", "under", "again", "further", "then",
   "here", "there", "all", "any", "both", "each", "few", "more", "most", "by", "for", "once",
   "other", "some", "such", "no", "nor", "not", "only", "own", "same", "so", "than", "too", "very",
   "s", "t", "can", "will", "just", "don", ap "don" "t", "should", ap "should" "ve", "now", "below", "to",
   "ain", "aren", ap "aren" "t", "couldn", ap "couldn" "t", "didn", ap "didn" "t", "doesn", ap "doesn" "t",
   "hadn", ap "hadn" "t", "hasn", ap "hasn" "t", "haven", ap "haven" "t", "isn", ap "isn" "t", "ma", "mightn",
   ap "mightn" "t", "mustn", ap "mustn" "t", "needn", ap "needn" "t", "shan", ap "shan" "t", "shouldn", ap "shouldn" "t",
   "wasn", ap "wasn" "t", "weren", ap "weren" "t", "won", ap "won" "t", "wouldn", ap "wouldn" "t"]

/-- The question-word set q_words of req_docs (src/djapp.py line 105). -/
def qWords : List String :=
  ["what", "which", "who", "whom", "when", "where", "whose", "why", "how"]

/-- The analytical-request word set addl_q_words of req_docs (line 106). -/
def addlQWords : List String :=
  ["explain", "describe", "elaborate", "summarize", "examine", "evaluate",
   "analyze", "clarify", "diagnose", "assess"]

/-- The token-filtering loop of req_docs (src/djapp.py lines 115 to 126),
one constructor case per iteration.  Arguments: remaining tokens, the
enumerate counter cntr, the ai_summary flag, the accumulator linp. -/
def normalize_go : List String → Nat → Bool → String → String × Bool
  | [], _, ai, linp => (linp, ai)
  | item :: rest, cntr, ai, linp =>
    if cntr == 0 && (qWords.contains (pyLower item) || addlQWords.contains (pyLower item)) then
      normalize_go rest (cntr + 1) true linp
    else if item == "AND" || item == "OR" || item == "NOT" then
      normalize_go rest (cntr + 1) ai (linp ++ " " ++ item)
    else if !(qWords.contains (pyLower item)) && !(stpWords.contains (pyLower item)) then
      normalize_go rest (cntr + 1) ai (linp ++ " " ++ pyLower item)
    else
      normalize_go rest (cntr + 1) ai linp

/-- Query normalization as performed at the top of req_docs: the ai_summary
flag starts as endswith of a question mark (line 113), then the loop above
filters the whitespace-split tokens. -/
def normalize (inp : String) : String × Bool :=
  normalize_go (pysplit inp) 0 (pyEndsWith inp "?") ""

/-- Normalization as claim C5 words it: the operators AND, OR, NOT pass
through unmodified; every other token is lower-cased; exactly the tokens of
the fixed stop-word set are dropped. -/
def normalize_claim (inp : String) : String :=
  (pysplit inp).foldl (fun linp item =>
    if item == "AND" || item == "OR" || item == "NOT" then linp ++ " " ++ item
    else if stpWords.contains (pyLower item) then linp
    else linp ++ " " ++ pyLower item) ""

/-- One step of the filtering loop after the first token: operators kept
verbatim, tokens whose lower-casing is a stop word or a question word
dropped, everything else kept lower-cased.  Used to state the amended C5. -/
def tailStep (acc t : String) : String :=
  if t == "AND" || t == "OR" || t == "NOT" then acc ++ " " ++ t
  else if stpWords.contains (pyLower t) || qWords.contains (pyLower t) then acc
  else acc ++ " " ++ pyLower t

/-- Normalization as amended claim C5 words it: the first token is dropped
(and the summary flag forced) when its lower-casing is a question word or an
analytical-request word, every token is otherwise processed uniformly by
tailStep, and the summary flag is the question-mark test or the first-token
test. -/
def normalize_amended (inp : String) : String × Bool :=
  match pysplit inp with
  | [] => ("", pyEndsWith inp "?")
  | t :: rest =>
    ((if qWords.contains (pyLower t) || addlQWords.contains (pyLower t) then rest.foldl tailStep ""
      else rest.foldl tailStep (tailStep "" t)),
     pyEndsWith inp "?" || (qWords.contains (pyLower t) || addlQWords.contains (pyLower t)))

/-! ## Snippet window construction (src/djapp.py, fmt_ftresults, lines 50 to 67) -/

/-- The window-emission loop of fmt_ftresults (lines 55 to 67): for each
occurrence index, Python computes lft as ind minus 5 clamped at 0, rgt as
ind plus 5 clamped at maxind, appends the end-exclusive slice joined by
blanks followed by an emsp separator, and after emitting the window whose
counter exceeds 9 appends an ellipsis and breaks.  The try/except around the
append can never fire and is not modelled.  Natural subtraction gives the
Python clamp of lft at 0. -/
def build_windows (txtlst : List String) (maxind : Nat) : List Nat → Nat → String → String
  | [], _, txt => txt
  | ind :: rest, cntr, txt =>
    let txt2 := txt ++ " " ++
      pyJoin " " (pyslice txtlst (ind - 5) (if ind + 5 > maxind then maxind else ind + 5)) ++
      " &emsp;"
    if cntr > 9 then txt2 ++ " ..." else build_windows txtlst maxind rest (cntr + 1) txt2

/-- One emitted window as the source produces it, with the clamp written as
min.  Used to state the amended claim C4. -/
def winStep (txtlst : List String) (maxind : Nat) (acc : String) (ind : Nat) : String :=
  acc ++ " " ++ pyJoin " " (pyslice txtlst (ind - 5) (min (ind + 5) maxind)) ++ " &emsp;"

/-- Window emission as amended claim C4 words it: one window per occurrence
index among the first eleven, each window the end-exclusive token range from
five before the match to the clamp of five after, with an ellipsis appended
exactly when there are eleven or more occurrence indices. -/
def emitted_windows (txtlst : List String) (maxind : Nat) (indxs : List Nat) : String :=
  if 11 ≤ indxs.length then ((indxs.take 11).foldl (winStep txtlst maxind) "") ++ " ..."
  else (indxs.take 11).foldl (winStep txtlst maxind) ""

/-- One window as claim C4 words it: up to five tokens before and up to five
tokens after the matched token, an inclusive range. -/
def claimWinStep (txtlst : List String) (maxind : Nat) (acc : String) (ind : Nat) : String :=
  acc ++ " " ++ pyJoin " " (pyslice txtlst (ind - 5) (min (ind + 5) maxind + 1)) ++ " &emsp;"

/-- Window emission as claim C4 words it: at most ten windows, each with up
to five tokens on either side of the match, then an ellipsis and stop. -/
def claim_windows (txtlst : List String) (maxind : Nat) (indxs : List Nat) : String :=
  if 10 < indxs.length then ((indxs.take 10).foldl (claimWinStep txtlst maxind) "") ++ " ..."
  else (indxs.take 10).foldl (claimWinStep txtlst maxind) ""

/-- Number of occurrences of a non-empty pattern in a string, via splitOn. -/
def countSub (s pat : String) : Nat := (pySplitOn s pat).length - 1

/-! ## Result formatting (src/djapp.py, fmt_ftresults, lines 29 to 79) -/

/-- One lexical-index hit as consumed by fmt_ftresults: the doctext, docpath
and docts fields requested from the backend. -/
structure FTDoc where
  doctext : String
  docpath : String
  docts : Nat
deriving DecidableEq

/-- Python replace of the question mark, comma and full stop by nothing,
applied to hit text and query text alike (lines 34 and 41). -/
def strip_qcd (s : String) : String := pyReplace (pyReplace (pyReplace s "?" "") "," "") "." ""

/-- The strip applied to a query term before index matching (line 48):
leading open parens, then leading plus signs, then leading minus signs, then
trailing close parens. -/
def termStripIdx (t : String) : String :=
  rstripChar (Char.ofNat 41) (lstripChar (Char.ofNat 45) (lstripChar (Char.ofNat 43) (lstripChar (Char.ofNat 40) t)))

/-- The strip applied to a query term before highlighting (line 74): leading
plus signs then leading minus signs. -/
def termStripHl (t : String) : String := lstripChar (Char.ofNat 45) (lstripChar (Char.ofNat 43) t)

/-- All indices i with txtlst i lower-cased equal to t, in order (line 48). -/
def idxsOf (txtlst : List String) (t : String) : List Nat :=
  txtlst.enum.filterMap (fun p => if pyLower p.2 == t then some p.1 else none)

/-- Order-preserving de-duplication, first occurrence kept, as
OrderedDict.fromkeys does on line 49. -/
def dedup_go : List Nat → List Nat → List Nat
  | [], _ => []
  | x :: rest, seen => if seen.contains x then dedup_go rest seen else x :: dedup_go rest (x :: seen)

/-- Order-preserving de-duplication entry point. -/
def dedupKeepOrder (l : List Nat) : List Nat := dedup_go l []

/-- The highlight marker wrapped around a matched token (line 75). -/
def spanTok (each : String) : String := "<span class=\"srchterm\">" ++ each ++ "</span>"

/-- The per-hit body of fmt_ftresults (lines 31 to 78): tokenize the hit
text, tokenize and clean the filtered query, collect de-duplicated match
indices, emit the windows, fall back to the first 500 characters when no
window text was produced, highlight matching tokens, and pair the result
with the docpath and the formatted timestamp.  The strftime/localtime
rendering of docts is an external clock-dependent call and is passed in as
fmtTime. -/
def fmt_one (fmtTime : Nat → String) (fltr_inp : String) (item : FTDoc) : String × String × String :=
  let txtlst := pysplit (strip_qcd item.doctext)
  let inpl := pysplit
    ((pySplitOn (pyLower (pyReplace (strip_qcd (pyReplace (pyReplace (pyReplace fltr_inp "AND" "") "OR" "") "NOT" "")) "\"" "")) "~").headD "")
  let indxs := dedupKeepOrder (inpl.foldl (fun acc term => acc ++ idxsOf txtlst (termStripIdx term)) [])
  let maxind := txtlst.length - 1
  let txt := build_windows txtlst maxind indxs 0 ""
  let txt2 := if txt == "" then takeChars 500 item.doctext else txt
  let hl := inpl.foldl (fun acc term =>
    acc.map (fun each => if pyLower each == termStripHl term then spanTok each else each)) (pysplit txt2)
  (item.docpath, fmtTime item.docts, pyJoin " " hl)

/-- The enumerate loop of fmt_ftresults (line 31): doccntr starts as None
and each iteration sets it to the 1-based counter while appending the
formatted hit. -/
def fmt_go (fmtTime : Nat → String) (fltr_inp : String) :
    List FTDoc → Nat → Option Nat → List (String × String × String) →
    List (String × String × String) × Option Nat
  | [], _, doccntr, acc => (acc.reverse, doccntr)
  | d :: rest, i, _, acc => fmt_go fmtTime fltr_inp rest (i + 1) (some i) (fmt_one fmtTime fltr_inp d :: acc)

/-- fmt_ftresults: formats the backend docs list, returning the display list
and the final value of the loop counter doccntr. -/
def fmt_ftresults (fmtTime : Nat → String) (docs : List FTDoc) (fltr_inp : String) :
    List (String × String × String) × Option Nat :=
  fmt_go fmtTime fltr_inp docs 1 none []

/-! ## Hybrid retrieval coordinator (src/djapp.py, req_docs, lines 109 to 187) -/

/-- The decoded JSON body of a successful lexical search response: the ok
flag of the transport response, response.numFound, and response.docs. -/
structure FTResponse where
  ok : Bool
  numFound : Nat
  docs : List FTDoc
deriving DecidableEq

/-- The decoded JSON body of a vector search response: the ok flag,
hits.total.value, and the docchunk field of each hit in order. -/
structure VecResponse where
  ok : Bool
  totalHits : Nat
  chunks : List String
deriving DecidableEq

/-- The external collaborators of one req_docs call: the outcome of the
lexical GET, the outcome of the vector GET were it issued, the generative
model, the markdown renderer, and the timestamp formatter.  Except.error
models a raised transport exception. -/
structure Env where
  ftResp : Except Unit FTResponse
  vecResp : Except Unit VecResponse
  lm : String → String
  md : String → String
  fmtTime : Nat → String

/-- The observable outcome of req_docs: the four returned values plus which
external calls were made.  The returned ai_summary is falsy (None, False or
the empty list) exactly when summary is none here. -/
structure ReqDocsResult where
  ft_result : Option (List (String × String × String))
  summary : Option String
  descr : Option String
  err : Option String
  lexCalled : Bool
  vecCalled : Bool
  lmCalled : Bool
deriving DecidableEq

/-- The AI-summary stage of req_docs (lines 151 to 186): the flag is
re-gated by the truthiness of ft_result; on a transport exception or a
non-ok or zero-hit vector response the summary is dropped silently; on
success the context is the de-quoted query followed by every chunk in order,
passed through the model and the markdown renderer. -/
def vec_stage (env : Env) (ai : Bool) (linp : String)
    (ftres : Option (List (String × String × String))) (descr : Option String) : ReqDocsResult :=
  if ai && pyTruthyList ftres then
    match env.vecResp with
    | Except.error _ => ⟨ftres, none, descr, none, true, true, false⟩
    | Except.ok v =>
      if v.ok && decide (0 < v.totalHits) then
        ⟨ftres, some (env.md (env.lm ((pyReplace linp "\"" "") ++ " " ++ pyJoin " " v.chunks))),
         descr, none, true, true, true⟩
      else ⟨ftres, none, descr, none, true, true, false⟩
  else ⟨ftres, none, descr, none, true, false, false⟩

/-- req_docs (lines 109 to 187).  The branches that set err return directly
here because the summary gate below them is vacuous when ft_result is None;
the two lexical-success branches fall through to the summary stage. -/
def req_docs (env : Env) (inp : String) : ReqDocsResult :=
  if (normalize inp).1 == "" then
    ⟨none, none, none, some "Enter good search terms", false, false, false⟩
  else
    match env.ftResp with
    | Except.error _ =>
      ⟨none, none, none, some "Unable to search documents. Check the logs files.", true, false, false⟩
    | Except.ok resp =>
      if resp.ok then
        if 0 < resp.numFound then
          vec_stage env (normalize inp).2 (normalize inp).1
            (some (fmt_ftresults env.fmtTime resp.docs (normalize inp).1).1)
            (some ("Documents found:" ++ pyOptRepr (fmt_ftresults env.fmtTime resp.docs (normalize inp).1).2))
        else
          vec_stage env (normalize inp).2 (normalize inp).1 none (some "No document found")
      else
        ⟨none, none, none, some "Error searching documents. Check the logs files.", true, false, false⟩

/-! ## Vector bulk-write error handling (src/storedocs.py, index_embds, lines 164 to 204) -/

/-- One item of an OpenSearch bulk response body.  The JSON item is an
object with a single key equal to the request action (create or index),
recorded as actionKey; the nested error object with its type field exists
exactly when the item failed, recorded as errorType. -/
structure BulkItem where
  actionKey : String
  errorType : Option String
deriving DecidableEq

/-- The decoded bulk response: the transport ok flag, the top-level errors
flag of the body, and the items array. -/
structure BulkResponse where
  ok : Bool
  errors : Bool
  items : List BulkItem
deriving DecidableEq

/-- The bulk action name chosen by index_embds (lines 174 to 177) from the
overwrite_on_dup flag. -/
def indxtype (overwrite_on_dup : String) : String :=
  if overwrite_on_dup == "n" then "create" else "index"

/-- The dictionary access on line 195, items[0] create error type, as a
partial lookup: none models the IndexError or KeyError the access raises
when the items array is empty, when the first item was issued under the
index action, or when the first item succeeded and so carries no error
object. -/
def bulk_first_create_error_type (r : BulkResponse) : Option String :=
  match r.items with
  | [] => none
  | it :: _ => if it.actionKey == "create" then it.errorType else none

/-- The observable outcome of the response handling of index_embds:
posted is the success log, skipped the version-conflict log, fatalExit a
sys.exit(1), transportExit the sys.exit(1) after a POST exception, and
raisedKeyError an uncaught lookup error inside the handler itself. -/
inductive EmbOutcome where
  | posted
  | skipped
  | fatalExit
  | transportExit
  | raisedKeyError
deriving DecidableEq

/-- The response handling of index_embds (lines 185 to 204): a POST
exception exits; otherwise the error branch is entered when the body flags
errors or the transport status is not ok, and inside it the type of the
first item of the batch alone decides between the conflict skip and the
fatal exit, the lookup itself raising when that path is absent. -/
def index_embds_check (resp : Except Unit BulkResponse) : EmbOutcome :=
  match resp with
  | Except.error _ => EmbOutcome.transportExit
  | Except.ok r =>
    if (r.ok && r.errors) || !r.ok then
      match bulk_first_create_error_type r with
      | none => EmbOutcome.raisedKeyError
      | some t =>
        if t == "version_conflict_engine_exception" then EmbOutcome.skipped else EmbOutcome.fatalExit
    else EmbOutcome.posted

/-- The batch outcome as claim C1 words it: every item inspected, a version
conflict on an item an intentional skip, any other error anywhere in the
batch fatal for the whole run. -/
def claim_bulk_outcome (r : BulkResponse) : EmbOutcome :=
  if r.items.any (fun it =>
      match it.errorType with
      | some t => t != "version_conflict_engine_exception"
      | none => false)
  then EmbOutcome.fatalExit else EmbOutcome.skipped

/-! ## Ingestion driver (src/storedocs.py, process_files and the module tail,
lines 206 to 341) -/

/-- The arguments of one process_files invocation after extraction from the
args dictionary (lines 232 to 238). -/
structure PFArgs where
  isSymlink : Bool
  prevrun_dt : Option String
  overwrite_on_dup : String
  fulltext : String
  embeddings : String
  tlsverify : String

/-- Where the prelude of process_files (lines 240 to 260) ends up: the
explicit sys.exit(0) no-op, the silent symlink return, the timestamp-error
return, or falling through to the traversal with the parsed cutoff. -/
inductive PFPrelude where
  | exitedZero
  | ignoredSymlink
  | badTimestampReturn
  | proceed (cutoff : Nat)
deriving DecidableEq

/-- The prelude of process_files in source order: the both-flags-off exit,
the symlink return, then the cutoff handling where a falsy prevrun_dt (None
or the empty string) means no cutoff and a string that strptime rejects logs
the format error and returns.  strptime and mktime are the external time
library, passed in as strptime. -/
def process_files_prelude (strptime : String → Option Nat) (a : PFArgs) : PFPrelude :=
  if a.fulltext == "n" && a.embeddings == "n" then PFPrelude.exitedZero
  else if a.isSymlink then PFPrelude.ignoredSymlink
  else
    match a.prevrun_dt with
    | none => PFPrelude.proceed 0
    | some s =>
      if s == "" then PFPrelude.proceed 0
      else
        match strptime s with
        | none => PFPrelude.badTimestampReturn
        | some n => PFPrelude.proceed n

/-- The observable outcome of one storedocs run: whether any document
extraction was attempted, whether the trailing lexical commit request was
issued, and the process exit code. -/
structure MainRun where
  extractionAttempted : Bool
  commitIssued : Bool
  exitCode : Nat
deriving DecidableEq

/-- The module tail after process_files returns (lines 329 to 341): the
commit POST is always attempted; if it raises, the following read of the
unbound response variable raises NameError and the process dies non-zero;
a response that arrives is only logged on failure and the script ends with
exit code 0 either way. -/
def commit_tail (extracted : Bool) (commitResp : Except Unit Bool) : MainRun :=
  match commitResp with
  | Except.error _ => ⟨extracted, true, 1⟩
  | Except.ok _ => ⟨extracted, true, 0⟩

/-- The whole storedocs run at the granularity claim C2 needs: the prelude
of process_files decides whether traversal is reached, a sys.exit(0) inside
process_files propagates past the commit, and every return path falls
through to the trailing commit.  The traversal itself and its per-file fatal
exits are outside this claim and abstracted into the proceed case. -/
def storedocs_run (strptime : String → Option Nat) (a : PFArgs) (commitResp : Except Unit Bool) : MainRun :=
  match process_files_prelude strptime a with
  | PFPrelude.exitedZero => ⟨false, false, 0⟩
  | PFPrelude.ignoredSymlink => commit_tail false commitResp
  | PFPrelude.badTimestampReturn => commit_tail false commitResp
  | PFPrelude.proceed _ => commit_tail true commitResp

/-! ## Embedding dimension check (src/coreutils.py, VectorEmbeddings init,
lines 146 to 159, and src/coreconfigs.py line 79) -/

/-- The configured vector index dimension from coreconfigs. -/
def _EMBED_DIM : Nat := 576

/-- The two ways the constructor check can end: the printed fatal
configuration error followed by sys.exit(1), or the model-ok message. -/
inductive VEInit where
  | fatalConfig
  | modelOk
deriving DecidableEq

/-- The startup check of the VectorEmbeddings constructor: the model encodes
a probe text and the process exits fatally exactly when the configured
dimension is strictly smaller than the embedding size of the probe. -/
def vector_embeddings_dim_check (embed_dim model_dim : Nat) : VEInit :=
  if embed_dim < model_dim then VEInit.fatalConfig else VEInit.modelOk

/-! ## Concrete response environments used by witnesses and counterexamples -/

/-- A lexical backend reporting zero hits; vector backend never relevant. -/
def envZeroHits : Env :=
  ⟨Except.ok ⟨true, 0, []⟩, Except.ok ⟨true, 0, []⟩, fun s => s, fun s => s, fun n => toString n⟩

/-- A lexical backend reporting numFound positive with an empty docs array. -/
def envEmptyDocs : Env :=
  ⟨Except.ok ⟨true, 3, []⟩, Except.ok ⟨true, 0, []⟩, fun s => s, fun s => s, fun n => toString n⟩

/-- A lexical backend with one hit and a vector backend with zero hits. -/
def envOneHit : Env :=
  ⟨Except.ok ⟨true, 1, [⟨"alpha beta alpha", "/tmp/a.txt", 7⟩]⟩, Except.ok ⟨true, 0, []⟩,
   fun s => s, fun s => s, fun n => toString n⟩

/-- A bulk response whose first item is a version conflict while a later
item carries a different error. -/
def cexBulk : BulkResponse :=
  ⟨true, true,
   [⟨"create", some "version_conflict_engine_exception"⟩,
    ⟨"create", some "mapper_parsing_exception"⟩]⟩

/-- Twelve identical tokens, used to drive twelve occurrence indices. -/
def cexToks : List String := ["m","m","m","m","m","m","m","m","m","m","m","m"]

/-- Twelve occurrence indices. -/
def cexIdxs : List Nat := [0,1,2,3,4,5,6,7,8,9,10,11]

/-- The ingestion arguments of a directory run with a malformed cutoff. -/
def argsBadTs : PFArgs := ⟨false, some "2025-99-99 99:99:99", "n", "y", "y", "n"⟩

/-! ## C7: embedding dimension check -/

/-- C7 counterexample: a model dimension of 384 differs from the configured
dimension 576, yet the constructor check accepts it, so a mismatch in that
direction is not a fatal configuration error as the claim states. -/
theorem dim_check_accepts_smaller_model_dim :
    vector_embeddings_dim_check _EMBED_DIM 384 = VEInit.modelOk ∧ (384 : Nat) ≠ _EMBED_DIM := by
  decide

/-- C7 amended: the constructor check is one-sided: it is fatal exactly when
the configured dimension is strictly smaller than the model dimension; a
model dimension at most the configured one is accepted. -/
theorem dim_check_one_sided :
    ∀ d m : Nat, vector_embeddings_dim_check d m = VEInit.fatalConfig ↔ d < m := by
  intro d m
  unfold vector_embeddings_dim_check
  split
  · simp_all
  · simp_all

/-- C7 witness: the amended theorem applied at the configured dimension and
the concrete model dimension 600. -/
theorem dim_check_one_sided_witness :
    vector_embeddings_dim_check _EMBED_DIM 600 = VEInit.fatalConfig :=
  (dim_check_one_sided _EMBED_DIM 600).mpr (by decide)

/-! ## C1: bulk error handling inspects only the first item -/

/-- C1 counterexample: on a batch whose first item is a version conflict and
whose second item failed with a different error, the code logs a skip and
continues, while the claimed per-item inspection would have made the run
abort fatally. -/
theorem index_embds_batch_not_fully_inspected :
    index_embds_check (Except.ok cexBulk) = EmbOutcome.skipped ∧
    claim_bulk_outcome cexBulk = EmbOutcome.fatalExit := by
  decide

/-- C1 amended: when the error branch of index_embds is entered and the
first batch item is a failed create item, that first item alone decides the
outcome: a version-conflict type on it skips the whole batch, any other type
exits fatally, and the remaining items are never inspected. -/
theorem index_embds_first_item_decides :
    ∀ (ok errs : Bool) (t : String) (rest rest2 : List BulkItem),
      ((ok && errs) || !ok) = true →
      index_embds_check (Except.ok ⟨ok, errs, ⟨"create", some t⟩ :: rest⟩) =
        (if t == "version_conflict_engine_exception" then EmbOutcome.skipped else EmbOutcome.fatalExit) ∧
      index_embds_check (Except.ok ⟨ok, errs, ⟨"create", some t⟩ :: rest⟩) =
        index_embds_check (Except.ok ⟨ok, errs, ⟨"create", some t⟩ :: rest2⟩) := by
  intro ok errs t rest rest2 h
  unfold index_embds_check bulk_first_create_error_type
  simp [h]

/-- C1 amended witness: a failed-create first item with a non-conflict type
is fatal regardless of the rest of the batch. -/
theorem index_embds_first_item_decides_witness :
    index_embds_check (Except.ok ⟨true, true, ⟨"create", some "mapper_parsing_exception"⟩ :: []⟩) =
      (if "mapper_parsing_exception" == "version_conflict_engine_exception" then EmbOutcome.skipped
       else EmbOutcome.fatalExit) ∧
    index_embds_check (Except.ok ⟨true, true, ⟨"create", some "mapper_parsing_exception"⟩ :: []⟩) =
      index_embds_check (Except.ok ⟨true, true,
        ⟨"create", some "mapper_parsing_exception"⟩ :: [⟨"create", none⟩]⟩) :=
  index_embds_first_item_decides true true "mapper_parsing_exception" [] [⟨"create", none⟩] (by decide)

/-! ## C10: the conflict check is a partial dictionary access -/

/-- C10: inside the error branch, the items[0] create error type access is
total only for a failed create first item: under the index action of
overwrite mode, or when the first item succeeded, the handler itself raises
a lookup error instead of skipping or exiting; with a failed create first
item it never raises. -/
theorem bulk_conflict_check_partiality :
    ∀ (ok errs : Bool) (st : Option String) (t : String) (rest : List BulkItem),
      ((ok && errs) || !ok) = true →
      index_embds_check (Except.ok ⟨ok, errs, ⟨indxtype "y", st⟩ :: rest⟩) = EmbOutcome.raisedKeyError ∧
      index_embds_check (Except.ok ⟨ok, errs, ⟨"create", none⟩ :: rest⟩) = EmbOutcome.raisedKeyError ∧
      index_embds_check (Except.ok ⟨ok, errs, ⟨"create", some t⟩ :: rest⟩) ≠ EmbOutcome.raisedKeyError := by
  intro ok errs st t rest h
  unfold index_embds_check bulk_first_create_error_type indxtype
  refine ⟨by simp [h], by simp [h], ?_⟩
  simp only [h, if_true, beq_self_eq_true]
  split <;> simp

/-- C10 witness: the partiality theorem at a concrete overwrite-mode batch,
a concrete succeeded-first-item batch, and a concrete failed-create batch. -/
theorem bulk_conflict_check_partiality_witness :
    index_embds_check (Except.ok ⟨true, true, ⟨indxtype "y", some "version_conflict_engine_exception"⟩ :: []⟩) =
      EmbOutcome.raisedKeyError ∧
    index_embds_check (Except.ok ⟨true, true, ⟨"create", none⟩ :: []⟩) = EmbOutcome.raisedKeyError ∧
    index_embds_check (Except.ok ⟨true, true, ⟨"create", some "some_other_exception"⟩ :: []⟩) ≠
      EmbOutcome.raisedKeyError :=
  bulk_conflict_check_partiality true true (some "version_conflict_engine_exception")
    "some_other_exception" [] (by decide)

/-! ## C2: malformed cutoff timestamp does not abort the run -/

/-- C2: with a cutoff string the time library rejects, process_files logs
the format error and returns instead of exiting: no file is extracted, but
the module tail still issues the trailing lexical commit and the process
ends with exit code 0, contrary to the specified fatal non-zero abort before
any backend request. -/
theorem bad_timestamp_continues_to_commit :
    ∀ strptime : String → Option Nat,
      strptime "2025-99-99 99:99:99" = none →
      process_files_prelude strptime argsBadTs = PFPrelude.badTimestampReturn ∧
      storedocs_run strptime argsBadTs (Except.ok true) =
        ⟨false, true, 0⟩ := by
  intro strptime h
  have hp : process_files_prelude strptime argsBadTs = PFPrelude.badTimestampReturn := by
    unfold process_files_prelude argsBadTs
    simp [h]
  exact ⟨hp, by unfold storedocs_run; rw [hp]; rfl⟩

/-- C2 witness: the theorem applied to a time library that rejects the
malformed string. -/
theorem bad_timestamp_continues_to_commit_witness :
    process_files_prelude (fun _ => none) argsBadTs = PFPrelude.badTimestampReturn ∧
    storedocs_run (fun _ => none) argsBadTs (Except.ok true) = ⟨false, true, 0⟩ :=
  bad_timestamp_continues_to_commit (fun _ => none) rfl

/-! ## Helper lemmas on the summary stage and the formatting loop -/

/-- Helper: every branch of the summary stage returns its ft_result input
unchanged. -/
theorem vec_stage_ft_result (env : Env) (ai : Bool) (linp : String)
    (ftres : Option (List (String × String × String))) (descr : Option String) :
    (vec_stage env ai linp ftres descr).ft_result = ftres := by
  unfold vec_stage
  split
  · split
    · rfl
    · split <;> rfl
  · rfl

/-- Helper: a falsy ft_result short-circuits the summary gate: no vector
call, no model call, no summary. -/
theorem vec_stage_not_truthy (env : Env) (ai : Bool) (linp : String)
    (ftres : Option (List (String × String × String))) (descr : Option String)
    (h : pyTruthyList ftres = false) :
    vec_stage env ai linp ftres descr = ⟨ftres, none, descr, none, true, false, false⟩ := by
  unfold vec_stage
  simp [h]

/-- Helper: the formatting loop appends one formatted hit per doc in order
and its counter ends as the 1-based index of the last doc processed. -/
theorem fmt_go_spec (fmtTime : Nat → String) (fltr : String) :
    ∀ (docs : List FTDoc) (i : Nat) (o : Option Nat) (acc : List (String × String × String)),
      fmt_go fmtTime fltr docs i o acc =
        (acc.reverse ++ docs.map (fmt_one fmtTime fltr),
         match docs with
         | [] => o
         | _ :: _ => some (i + docs.length - 1)) := by
  intro docs
  induction docs with
  | nil => intro i o acc; simp [fmt_go]
  | cons d rest ih =>
    intro i o acc
    rw [fmt_go, ih]
    cases rest with
    | nil => simp
    | cons e rest2 =>
      simp only [List.map_cons, List.reverse_cons, List.append_assoc, List.singleton_append,
        List.length_cons, Prod.mk.injEq]
      refine ⟨trivial, ?_⟩
      congr 1
      omega

/-- Helper: fmt_ftresults returns the backend docs formatted in order, and a
counter equal to the number of docs when there is at least one, None
otherwise. -/
theorem fmt_ftresults_spec (fmtTime : Nat → String) (docs : List FTDoc) (fltr : String) :
    fmt_ftresults fmtTime docs fltr =
      (docs.map (fmt_one fmtTime fltr),
       match docs with
       | [] => none
       | _ :: _ => some docs.length) := by
  unfold fmt_ftresults
  rw [fmt_go_spec]
  cases docs with
  | nil => rfl
  | cons d rest =>
    simp only [List.reverse_nil, List.nil_append, Prod.mk.injEq, List.length_cons]
    refine ⟨trivial, ?_⟩
    congr 1
    omega

/-! ## C3: zero lexical hits disable the summary and the vector call -/

/-- C3: whenever req_docs ends with a falsy document list (the lexical
search produced zero hits or was not executed), the returned summary is
disabled and neither the vector backend nor the generative model was
invoked. -/
theorem no_lexical_hits_disables_summary :
    ∀ (env : Env) (inp : String),
      pyTruthyList (req_docs env inp).ft_result = false →
      (req_docs env inp).summary = none ∧ (req_docs env inp).vecCalled = false ∧
      (req_docs env inp).lmCalled = false := by
  intro env inp
  unfold req_docs
  split
  · intro _; exact ⟨rfl, rfl, rfl⟩
  · split
    · intro _; exact ⟨rfl, rfl, rfl⟩
    · split
      · split
        · intro h
          rw [vec_stage_ft_result] at h
          rw [vec_stage_not_truthy _ _ _ _ _ h]
          exact ⟨rfl, rfl, rfl⟩
        · intro _
          rw [vec_stage_not_truthy env ((normalize inp).2) ((normalize inp).1) none
            (some "No document found") rfl]
          exact ⟨rfl, rfl, rfl⟩
      · intro _; exact ⟨rfl, rfl, rfl⟩

/-- C3 witness: a zero-hit lexical response on a question-style query. -/
theorem no_lexical_hits_disables_summary_witness :
    (req_docs envZeroHits "alpha?").summary = none ∧
    (req_docs envZeroHits "alpha?").vecCalled = false ∧
    (req_docs envZeroHits "alpha?").lmCalled = false :=
  no_lexical_hits_disables_summary envZeroHits "alpha?" (by decide)

/-! ## C6: empty normalized query makes no backend call -/

/-- C6: when normalization filters every token away, req_docs fails with the
input-validation error and contacts no backend: the lexical and vector calls
are never issued and no summary is attempted. -/
theorem empty_normalized_query_no_backend_calls :
    ∀ (env : Env) (inp : String),
      (normalize inp).1 = "" →
      req_docs env inp = ⟨none, none, none, some "Enter good search terms", false, false, false⟩ := by
  intro env inp h
  unfold req_docs
  simp [h]

/-- C6 witness: the stop-word-only query from the specification example. -/
theorem empty_normalized_query_no_backend_calls_witness :
    req_docs envZeroHits "the is a" =
      ⟨none, none, none, some "Enter good search terms", false, false, false⟩ :=
  empty_normalized_query_no_backend_calls envZeroHits "the is a" (by decide)

/-! ## C8: vector-stage failure silently disables the summary -/

/-- C8: with a summary still wanted after a lexical success with hits, a
vector transport exception, a non-ok vector response or a zero-hit vector
response each disables the summary silently: req_docs still returns the
formatted lexical list and its description, with no summary and no
user-facing error. -/
theorem vector_failure_silently_disables_summary :
    ∀ (env : Env) (inp linp : String) (resp : FTResponse) (d : FTDoc) (ds : List FTDoc),
      normalize inp = (linp, true) →
      linp ≠ "" →
      env.ftResp = Except.ok resp →
      resp.ok = true →
      0 < resp.numFound →
      resp.docs = d :: ds →
      (env.vecResp = Except.error () ∨
        ∃ v, env.vecResp = Except.ok v ∧ (v.ok = false ∨ v.totalHits = 0)) →
      (req_docs env inp).summary = none ∧
      (req_docs env inp).err = none ∧
      (req_docs env inp).ft_result = some (fmt_ftresults env.fmtTime resp.docs linp).1 ∧
      (req_docs env inp).descr =
        some ("Documents found:" ++ pyOptRepr (fmt_ftresults env.fmtTime resp.docs linp).2) ∧
      (req_docs env inp).vecCalled = true := by
  intro env inp linp resp d ds hn hne hf hok hnf hdocs hvec
  have hreq : req_docs env inp =
      vec_stage env true linp (some (fmt_ftresults env.fmtTime resp.docs linp).1)
        (some ("Documents found:" ++ pyOptRepr (fmt_ftresults env.fmtTime resp.docs linp).2)) := by
    unfold req_docs
    rw [hn, hf]
    simp [hne, hok, hnf]
  have htruthy : pyTruthyList (some (fmt_ftresults env.fmtTime resp.docs linp).1) = true := by
    rw [fmt_ftresults_spec, hdocs]
    rfl
  rw [hreq]
  unfold vec_stage
  rcases hvec with hv | ⟨v, hv, hcase⟩
  · simp [htruthy, hv]
  · rcases hcase with hvo | hvt
    · simp [htruthy, hv, hvo]
    · simp [htruthy, hv, hvt]

/-- C8 witness: one lexical hit, question-style query, zero vector hits. -/
theorem vector_failure_silently_disables_summary_witness :
    (req_docs envOneHit "alpha?").summary = none ∧
    (req_docs envOneHit "alpha?").err = none ∧
    (req_docs envOneHit "alpha?").ft_result =
      some (fmt_ftresults envOneHit.fmtTime (FTResponse.docs ⟨true, 1, [⟨"alpha beta alpha", "/tmp/a.txt", 7⟩]⟩) " alpha?").1 ∧
    (req_docs envOneHit "alpha?").descr =
      some ("Documents found:" ++
        pyOptRepr (fmt_ftresults envOneHit.fmtTime (FTResponse.docs ⟨true, 1, [⟨"alpha beta alpha", "/tmp/a.txt", 7⟩]⟩) " alpha?").2) ∧
    (req_docs envOneHit "alpha?").vecCalled = true :=
  vector_failure_silently_disables_summary envOneHit "alpha?" " alpha?"
    ⟨true, 1, [⟨"alpha beta alpha", "/tmp/a.txt", 7⟩]⟩ ⟨"alpha beta alpha", "/tmp/a.txt", 7⟩ []
    (by decide) (by decide) rfl rfl (by decide) rfl
    (Or.inr ⟨⟨true, 0, []⟩, rfl, Or.inr rfl⟩)

/-! ## C9: hit order is preserved but the empty-docs count is None -/

/-- C9 counterexample: a lexical response with numFound positive and an
empty docs array formats zero hits, yet the rendered description is the
string Documents found:None rather than the count 0 the claim requires. -/
theorem doc_count_none_on_empty_docs :
    (req_docs envEmptyDocs "alpha").ft_result = some [] ∧
    (req_docs envEmptyDocs "alpha").descr = some "Documents found:None" ∧
    "Documents found:None" ≠ "Documents found:" ++ pyOptRepr (some 0) := by
  refine ⟨rfl, rfl, by decide⟩

/-- C9 amended: the output list of fmt_ftresults is the backend docs
formatted in backend order, and the returned count equals the number of hits
formatted whenever at least one hit was present; with an empty docs array
the counter keeps its initial None and renders as Documents found:None. -/
theorem fmt_ftresults_order_and_count :
    ∀ (fmtTime : Nat → String) (fltr : String) (docs : List FTDoc),
      (fmt_ftresults fmtTime docs fltr).1 = docs.map (fmt_one fmtTime fltr) ∧
      (docs ≠ [] → (fmt_ftresults fmtTime docs fltr).2 = some docs.length) ∧
      (fmt_ftresults fmtTime [] fltr).2 = none := by
  intro fmtTime fltr docs
  refine ⟨by rw [fmt_ftresults_spec], ?_, by rw [fmt_ftresults_spec]⟩
  intro hne
  rw [fmt_ftresults_spec]
  cases docs with
  | nil => exact absurd rfl hne
  | cons d rest => rfl

/-- C9 amended witness: a one-hit docs list keeps order and counts one. -/
theorem fmt_ftresults_order_and_count_witness :
    (fmt_ftresults (fun n => toString n) [⟨"a b", "/p", 1⟩] "a").1 =
      [⟨"a b", "/p", 1⟩].map (fmt_one (fun n => toString n) "a") ∧
    ([(⟨"a b", "/p", 1⟩ : FTDoc)] ≠ [] →
      (fmt_ftresults (fun n => toString n) [⟨"a b", "/p", 1⟩] "a").2 = some 1) ∧
    (fmt_ftresults (fun n => toString n) ([] : List FTDoc) "a").2 = none := by
  have h := fmt_ftresults_order_and_count (fun n => toString n) "a" [⟨"a b", "/p", 1⟩]
  exact ⟨h.1, fun _ => h.2.1 (by decide), h.2.2⟩

/-! ## C4: snippet windows -/

/-- Helper: the clamp written with an ite equals the clamp written with min. -/
theorem win_ite_min (txtlst : List String) (maxind ind : Nat) (txt : String) :
    txt ++ " " ++ pyJoin " " (pyslice txtlst (ind - 5) (if ind + 5 > maxind then maxind else ind + 5)) ++ " &emsp;"
      = winStep txtlst maxind txt ind := by
  have h : (if ind + 5 > maxind then maxind else ind + 5) = min (ind + 5) maxind := by
    split <;> omega
  unfold winStep
  rw [h]

/-- Helper: the window loop started at counter cntr at most 10 processes the
first 11 minus cntr indices and appends the ellipsis exactly when that many
indices exist. -/
theorem build_windows_go (txtlst : List String) (maxind : Nat) :
    ∀ (indxs : List Nat) (cntr : Nat) (txt : String), cntr ≤ 10 →
      build_windows txtlst maxind indxs cntr txt =
        if 11 - cntr ≤ indxs.length then
          ((indxs.take (11 - cntr)).foldl (winStep txtlst maxind) txt) ++ " ..."
        else (indxs.take (11 - cntr)).foldl (winStep txtlst maxind) txt := by
  intro indxs
  induction indxs with
  | nil =>
    intro c txt hc
    have h : ¬ (11 - c ≤ ([] : List Nat).length) := by
      simp only [List.length_nil]
      omega
    rw [if_neg h]
    simp [build_windows]
  | cons ind rest ih =>
    intro c txt hc
    simp only [build_windows]
    by_cases h9 : c > 9
    · rw [if_pos h9]
      have hc10 : c = 10 := by omega
      subst hc10
      have hlen : 11 - 10 ≤ (ind :: rest).length := by
        simp only [List.length_cons]
        omega
      have htake : (ind :: rest).take (11 - 10) = [ind] := rfl
      rw [if_pos hlen, htake, List.foldl_cons, List.foldl_nil, win_ite_min]
    · rw [if_neg h9, ih (c + 1) _ (by omega)]
      have h2 : 11 - (c + 1) = 10 - c := by omega
      rw [h2]
      have h1 : 11 - c = (10 - c) + 1 := by omega
      rw [h1, List.take_succ_cons, List.foldl_cons, win_ite_min]
      have hcond : ((10 - c) + 1 ≤ (ind :: rest).length) ↔ (10 - c ≤ rest.length) := by
        simp only [List.length_cons]
        omega
      simp only [hcond]

/-- C4 counterexample: on twelve occurrence indices over twelve tokens the
code emits eleven windows, one more than the ten the claim allows, and its
output differs from the claimed construction of at most ten windows of five
tokens on each side. -/
theorem window_emission_differs_from_claim :
    countSub (build_windows cexToks 11 cexIdxs 0 "") "&emsp;" = 11 ∧
    build_windows cexToks 11 cexIdxs 0 "" ≠ claim_windows cexToks 11 cexIdxs := by
  set_option maxRecDepth 4000 in
  refine ⟨by decide, by decide⟩

/-- C4 amended: each emitted window is the end-exclusive token range from
five before the occurrence to the clamp of five after it, so up to five
tokens before but at most four tokens after the match, with the final
document token excluded when the clamp hits it; up to eleven windows are
emitted, and with eleven or more occurrence indices an ellipsis is appended
after the eleventh window and emission stops. -/
theorem window_emission_characterization :
    ∀ (txtlst : List String) (maxind : Nat) (indxs : List Nat),
      build_windows txtlst maxind indxs 0 "" = emitted_windows txtlst maxind indxs := by
  intro txtlst maxind indxs
  rw [build_windows_go txtlst maxind indxs 0 "" (by omega)]
  rfl

/-! ## C5: normalization drop set -/

/-- Helper: one non-first iteration of the filtering loop as a fold step,
with exactly the branch structure of the source loop. -/
def normStep (acc t : String) : String :=
  if t == "AND" || t == "OR" || t == "NOT" then acc ++ " " ++ t
  else if !(qWords.contains (pyLower t)) && !(stpWords.contains (pyLower t)) then acc ++ " " ++ pyLower t
  else acc

/-- Helper: past the first token the loop counter no longer matters and the
loop is a left fold of normStep carrying the flag unchanged. -/
theorem normalize_go_tail :
    ∀ (toks : List String) (c : Nat) (ai : Bool) (linp : String),
      normalize_go toks (c + 1) ai linp = (toks.foldl normStep linp, ai) := by
  intro toks
  induction toks with
  | nil => intro c ai linp; rfl
  | cons t rest ih =>
    intro c ai linp
    have h0 : ((c + 1 : Nat) == 0) = false := by simp
    simp only [normalize_go, List.foldl_cons, h0, Bool.false_and, Bool.false_eq_true, if_false]
    by_cases h1 : (t == "AND" || t == "OR" || t == "NOT") = true
    · rw [if_pos h1, ih (c + 1)]
      rw [show normStep linp t = linp ++ " " ++ t from by unfold normStep; rw [if_pos h1]]
    · rw [if_neg h1]
      by_cases h2 : (!(qWords.contains (pyLower t)) && !(stpWords.contains (pyLower t))) = true
      · rw [if_pos h2, ih (c + 1)]
        rw [show normStep linp t = linp ++ " " ++ pyLower t from by
          unfold normStep; rw [if_neg h1, if_pos h2]]
      · rw [if_neg h2, ih (c + 1)]
        rw [show normStep linp t = linp from by unfold normStep; rw [if_neg h1, if_neg h2]]

/-- Helper: the loop step and the uniform amended step agree everywhere. -/
theorem normStep_eq_tailStep : normStep = tailStep := by
  funext acc t
  unfold normStep tailStep
  by_cases h1 : (t == "AND" || t == "OR" || t == "NOT") = true
  · rw [if_pos h1, if_pos h1]
  · rw [if_neg h1, if_neg h1]
    cases hq : qWords.contains (pyLower t) <;> cases hs : stpWords.contains (pyLower t) <;> simp

/-- C5 counterexample: the token how is not in the stop-word set, so the
claimed normalization keeps it, but the code also drops question words in
any position: the two differ on the input apples how. -/
theorem normalize_drops_question_words_cex :
    (normalize "apples how").1 = " apples" ∧
    normalize_claim "apples how" = " apples how" ∧
    (normalize "apples how").1 ≠ normalize_claim "apples how" := by
  refine ⟨by decide, by decide, by decide⟩

/-- C5 amended: AND, OR and NOT pass through unmodified and are never
dropped, every other retained token is lower-cased, and the dropped tokens
are exactly those whose lower-casing is a stop word or a question word,
together with the first token when its lower-casing is a question word or an
analytical-request word, which also forces the summary flag; the
specification example normalizes as stated. -/
theorem normalize_characterization :
    (∀ inp, normalize inp = normalize_amended inp) ∧
    normalize "What is AND the project status?" = (" AND project status?", true) := by
  refine ⟨?_, by decide⟩
  intro inp
  unfold normalize normalize_amended
  cases h : pysplit inp with
  | nil => rfl
  | cons t rest =>
    simp only [normalize_go, beq_self_eq_true, Bool.true_and]
    cases hq : (qWords.contains (pyLower t) || addlQWords.contains (pyLower t)) with
    | true =>
      rw [if_pos rfl, if_pos rfl, normalize_go_tail rest 0, normStep_eq_tailStep, Bool.or_true]
    | false =>
      rw [if_neg Bool.false_ne_true, if_neg Bool.false_ne_true, Bool.or_false]
      cases h1 : (t == "AND" || t == "OR" || t == "NOT") with
      | true =>
        rw [if_pos rfl, normalize_go_tail rest 0, normStep_eq_tailStep]
        have ht : tailStep "" t = "" ++ " " ++ t := by
          unfold tailStep
          rw [h1, if_pos rfl]
        rw [ht]
      | false =>
        rw [if_neg Bool.false_ne_true]
        cases h2 : (!(qWords.contains (pyLower t)) && !(stpWords.contains (pyLower t))) with
        | true =>
          rw [if_pos rfl, normalize_go_tail rest 0, normStep_eq_tailStep]
          have hsq : (stpWords.contains (pyLower t) || qWords.contains (pyLower t)) = false := by
            revert h2
            cases qWords.contains (pyLower t) <;> cases stpWords.contains (pyLower t) <;> simp
          have ht : tailStep "" t = "" ++ " " ++ pyLower t := by
            unfold tailStep
            rw [h1, hsq, if_neg Bool.false_ne_true, if_neg Bool.false_ne_true]
          rw [ht]
        | false =>
          rw [if_neg Bool.false_ne_true, normalize_go_tail rest 0, normStep_eq_tailStep]
          have hst : (stpWords.contains (pyLower t) || qWords.contains (pyLower t)) = true := by
            revert hq h2
            cases qWords.contains (pyLower t) <;> cases stpWords.contains (pyLower t) <;> simp
          have ht : tailStep "" t = "" := by
            unfold tailStep
            rw [h1, hst, if_neg Bool.false_ne_true, if_pos rfl]
          rw [ht]

end HybridSearch
